import Mathlib

/-!
Verification development for the resume-match-backend webhook (app.py).

The whole program is one Flask handler with three steps: resolve resume text
from a local path or URL, call the chat-completion API, and reshape the parsed
match JSON. We embed the handler shallowly: parsed JSON values become the
inductive type JVal, Python attribute errors become the PyError sum carried in
Except, and the three external effects (local file reads, HTTP GETs, and the
chat-completion POST) are supplied by a World record of oracle functions. An
Effect trace records which external interactions the handler performed, in
order, so that guard claims (no outbound call before the credential check) are
statable.
-/

set_option autoImplicit false

/-- Parsed JSON values, the possible results of json.loads. Numbers are
modelled as rationals; objects as association lists (json.loads produces
dicts, so keys are unique in every value the program actually handles). -/
inductive JVal where
  | null
  | bool (b : Bool)
  | num (q : Rat)
  | str (s : String)
  | arr (elems : List JVal)
  | obj (fields : List (String × JVal))

/-- The one Python runtime error the embedded fragments can raise: calling
.get or .startswith on a value that is not a dict resp. not a str. -/
inductive PyError where
  | attributeError
  deriving DecidableEq

/-- First-match association-list lookup, the dict lookup of the embedding. -/
def jlookup : List (String × JVal) → String → Option JVal
  | [], _ => none
  | (k, v) :: rest, key => if k = key then some v else jlookup rest key

/-- Field access on a JSON value: some value for a present key of an object,
none otherwise. Used only to state properties about response bodies. -/
def getField : JVal → String → Option JVal
  | .obj kvs, k => jlookup kvs k
  | _, _ => none

/-- Python d.get(k): returns None for a missing key, raises AttributeError
when the receiver is not a dict. -/
def pyGet (v : JVal) (k : String) : Except PyError JVal :=
  match v with
  | .obj kvs => .ok ((jlookup kvs k).getD .null)
  | _ => .error .attributeError

/-- Python d.get(k, default): like pyGet but with an explicit default. -/
def pyGetD (v : JVal) (k : String) (d : JVal) : Except PyError JVal :=
  match v with
  | .obj kvs => .ok ((jlookup kvs k).getD d)
  | _ => .error .attributeError

/-- Python truthiness of a parsed JSON value. -/
def truthy : JVal → Bool
  | .null => false
  | .bool b => b
  | .num q => q != 0
  | .str s => s != ""
  | .arr elems => !elems.isEmpty
  | .obj kvs => !kvs.isEmpty

/-- Python s.startswith(pre) for strings. -/
def str_startswith (s pre : String) : Bool :=
  pre.data.isPrefixOf s.data

/-- Does pat occur as a contiguous run inside the character list? -/
def chars_contains : List Char → List Char → Bool
  | [], pat => pat.isEmpty
  | c :: rest, pat => pat.isPrefixOf (c :: rest) || chars_contains rest pat

/-- Python substring membership, pat in s. -/
def str_contains (s pat : String) : Bool :=
  chars_contains s.data pat.data

/-- Python v.startswith(pre) on a parsed JSON value: only strings have the
startswith attribute. -/
def pyStartswith (v : JVal) (pre : String) : Except PyError Bool :=
  match v with
  | .str s => .ok (str_startswith s pre)
  | _ => .error .attributeError

/-- The fallback sentinel substituted when no resume text could be resolved
(app.py line 119). -/
def sentinel : String :=
  "(Full resume text unavailable. Proceeding with job_text and limited info.)"

/-- Step 3 of the handler (app.py lines 117-119): if not resume_text, replace
it by the sentinel. Both None and the empty string are falsy. -/
def fallback : Option String → String
  | none => sentinel
  | some t => if t = "" then sentinel else t

/-- An HTTP response as seen through the requests library: status code, the
Content-Type header (empty string when the header is absent, matching the
.get(.., "") default at app.py line 33), and the decoded body text. -/
structure HttpResponse where
  status : Nat
  contentType : String
  bodyText : String

/-- The outbound chat-completion request body together with its Authorization
header, as assembled at app.py lines 79-88. -/
structure OpenAIPayload where
  authorization : String
  model : String
  system_content : String
  user_content : String
  temperature : Rat
  max_tokens : Nat

/-- The external world: the local filesystem (read_local_file_text collapses
every failure to None, so one Option-valued oracle is faithful), the HTTP GET
oracle (none models any network or timeout exception), the chat-completion
POST oracle (an error string models any transport, status or JSON-parse
exception raised inside call_openai_match, carrying str(e)), and the Python
str() rendering used when non-string JSON values are interpolated into the
prompt f-string. -/
structure World where
  localFiles : String → Option String
  http : String → Option HttpResponse
  post_openai : OpenAIPayload → Except String JVal
  py_str : JVal → String

/-- fetch_url_text (app.py lines 28-38): GET the URL; any exception yields
None, including the HTTPError of raise_for_status, which requests raises
exactly for the client and server error statuses 400-599; any other status
proceeds to the content-type check, and the body text is returned only when
the Content-Type contains text or json. -/
def fetch_url_text (w : World) (url : String) : Option String :=
  match w.http url with
  | none => none
  | some r =>
    if 400 ≤ r.status ∧ r.status < 600 then none
    else if str_contains r.contentType "text" || str_contains r.contentType "json" then
      some r.bodyText
    else none

/-- read_local_file_text (app.py lines 17-26): every failure path (missing
file, read error) already returns None, so the oracle is the function. -/
def read_local_file_text (w : World) (path : String) : Option String :=
  w.localFiles path

/-- The json.dumps rendering of the schema dict at app.py lines 43-57, with
the default separators of json.dumps. -/
def schema_dump : String :=
  "\x7b\"candidate_id\": \"string\", \"name\": \"string\", \"skills\": [\"string\"], \"experience_years\": \"number\", \"summary\": \"string\", \"match\": \x7b\"job_id\": \"string\", \"semantic_score\": \"number\", \"skill_coverage\": \"number\", \"final_score\": \"number\", \"matched_skills\": [\"string\"], \"explanation\": \"string\"\x7d\x7d"

/-- Prompt text before the resume excerpt (app.py lines 59-64). -/
def prompt_p1 : String :=
  "\nYou are a recruiter assistant. Return ONLY valid JSON (no explanation) matching this schema:\n"
    ++ schema_dump ++ "\n\nInputs:\nresume_text: \"\"\""

/-- Prompt text between the resume excerpt and candidate_id. -/
def prompt_p2 : String := "\"\"\"\ncandidate_id: "

/-- Prompt text between candidate_id and candidate_name. -/
def prompt_p3 : String := "\ncandidate_name: \"\"\""

/-- Prompt text between candidate_name and job_id. -/
def prompt_p4 : String := "\"\"\"\njob_id: "

/-- Prompt text between job_id and the job excerpt. -/
def prompt_p5 : String := "\njob_text: \"\"\""

/-- Prompt text between the job excerpt and required_skills. -/
def prompt_p6 : String := "\"\"\"\nrequired_skills: "

/-- Prompt text after required_skills (app.py lines 70-78). -/
def prompt_p7 : String :=
  "\n\nRules:\n- Fill fields exactly as in the schema.\n- semantic_score and skill_coverage must be numbers between 0.0 and 1.0.\n- final_score = round(0.7 * semantic_score + 0.3 * skill_coverage, 2)\n- matched_skills = intersection of required_skills and skills found in resume (case-insensitive).\n- summary: one short sentence.\nReturn only the JSON object.\n"

/-- The user prompt of call_openai_match (app.py lines 59-78). The arguments
arrive already rendered as strings (the f-string applies str); the slices
resume_text[:4000] and job_text[:2000] become String.take. The Python
or-guard that replaces a falsy resume_text by the empty string is the
identity here, since the slice of the empty string is the empty string. -/
def build_prompt (resume_text candidate_id candidate_name job_id job_text required_skills : String) : String :=
  prompt_p1 ++ resume_text.take 4000 ++ prompt_p2 ++ candidate_id ++ prompt_p3
    ++ candidate_name ++ prompt_p4 ++ job_id ++ prompt_p5 ++ job_text.take 2000
    ++ prompt_p6 ++ required_skills ++ prompt_p7

/-- call_openai_match (app.py lines 40-93): assemble the payload, POST it, and
parse the returned content as JSON. The POST, the status check, the response
navigation and the json.loads are all inside the callers try, so the oracle
returns Except String JVal with str(e) as the error. -/
def call_openai_match (w : World) (key model resume_text candidate_id candidate_name job_id job_text required_skills : String) : Except String JVal :=
  w.post_openai
    { authorization := "Bearer " ++ key
      model := model
      system_content := "You are a JSON-only resume->job matching assistant."
      user_content := build_prompt resume_text candidate_id candidate_name job_id job_text required_skills
      temperature := 0
      max_tokens := 800 }

/-- The Response Shaper (app.py lines 128-134), with the dict-literal entries
evaluated in source order. Each .get on a non-dict raises AttributeError,
which the handler does not catch. -/
def shape (candidate_id : JVal) (match_json : JVal) : Except PyError JVal := do
  let m1 ← pyGetD match_json "match" (.obj [])
  let fit ← pyGet m1 "final_score"
  let summary ← pyGet match_json "summary"
  let m2 ← pyGetD match_json "match" (.obj [])
  let skills ← pyGetD m2 "matched_skills" (.arr [])
  pure (.obj [("candidate_id", candidate_id), ("ai_fit_score", fit),
    ("ai_summary", summary), ("ai_matched_skills", skills), ("raw_match", match_json)])

/-- The permissive body-field extraction (app.py lines 101-106). -/
def parse_fields (body : JVal) : Except PyError (JVal × JVal × JVal × JVal × JVal × JVal) := do
  let candidate_id ← pyGetD body "candidate_id" (.str "unknown")
  let candidate_name ← pyGetD body "candidate_name" (.str "")
  let resume_url ← pyGetD body "resume_url" (.str "")
  let job_id ← pyGetD body "job_id" (.str "JOB_000")
  let job_text ← pyGetD body "job_text" (.str "")
  let required_skills ← pyGetD body "required_skills" (.arr [])
  pure (candidate_id, candidate_name, resume_url, job_id, job_text, required_skills)

/-- Externally visible interactions of one request, in order. -/
inductive Effect where
  | parseBody
  | localRead (path : String)
  | httpGet (url : String)
  | openaiCall (resume_text : String)
  deriving DecidableEq

/-- Step 1 of text resolution (app.py lines 108-111): if resume_url is truthy
and startswith the local prefix, read the local file. A truthy non-string
raises AttributeError at the startswith call, before any effect. -/
def step_local (w : World) (resume_url : JVal) : Except PyError (Option String) × List Effect :=
  if truthy resume_url then
    match resume_url with
    | .str s =>
      if str_startswith s "/mnt/data" then (.ok (w.localFiles s), [.localRead s])
      else (.ok none, [])
    | _ => (.error .attributeError, [])
  else (.ok none, [])

/-- Step 2 of text resolution (app.py lines 113-115): only reached when the
local read produced None (not when it produced the empty string). -/
def step_url (w : World) (resume_url : JVal) : Except PyError (Option String) × List Effect :=
  if truthy resume_url then
    match resume_url with
    | .str s =>
      if str_startswith s "http" then (.ok (fetch_url_text w s), [.httpGet s])
      else (.ok none, [])
    | _ => (.error .attributeError, [])
  else (.ok none, [])

/-- The Text Resolver (app.py lines 108-119): local read, then URL fetch when
the read left None, then the sentinel fallback for None or empty text. -/
def resolve_resume_text (w : World) (resume_url : JVal) : Except PyError String × List Effect :=
  match step_local w resume_url with
  | (.error e, effs) => (.error e, effs)
  | (.ok (some t), effs1) => (.ok (fallback (some t)), effs1)
  | (.ok none, effs1) =>
    match step_url w resume_url with
    | (.error e, effs2) => (.error e, effs1 ++ effs2)
    | (.ok rt2, effs2) => (.ok (fallback rt2), effs1 ++ effs2)

/-- The POST /match handler (app.py lines 95-135). cfg_key and cfg_model are
the process configuration read at startup; body is the value request.get_json
produced. The result is either a Python-level exception escaping the handler
or a status code with a JSON body, paired with the trace of effects. -/
def match_handler (cfg_key : Option String) (cfg_model : String) (w : World) (body : JVal) :
    Except PyError (Nat × JVal) × List Effect :=
  match cfg_key with
  | none => (.ok (500, .obj [("error", .str "OPENAI_API_KEY not set on server")]), [])
  | some key =>
    match parse_fields body with
    | .error e => (.error e, [.parseBody])
    | .ok (candidate_id, candidate_name, resume_url, job_id, job_text, required_skills) =>
      match resolve_resume_text w resume_url with
      | (.error e, effs) => (.error e, .parseBody :: effs)
      | (.ok resume_text, effs) =>
        match call_openai_match w key cfg_model resume_text (w.py_str candidate_id)
            (w.py_str candidate_name) (w.py_str job_id) (w.py_str job_text)
            (w.py_str required_skills) with
        | .error detail =>
          (.ok (500, .obj [("error", .str "openai_error"), ("detail", .str detail)]),
            .parseBody :: effs ++ [.openaiCall resume_text])
        | .ok match_json =>
          match shape candidate_id match_json with
          | .error e => (.error e, .parseBody :: effs ++ [.openaiCall resume_text])
          | .ok out => (.ok (200, out), .parseBody :: effs ++ [.openaiCall resume_text])

/-- A quiescent world: no files, a dead network, a dead model endpoint. -/
def wEx : World :=
  { localFiles := fun _ => none
    http := fun _ => none
    post_openai := fun _ => .error "connection error"
    py_str := fun _ => "" }

/-! ## Claim C1: totality of the Response Shaper -/

/-- C1 counterexample: the Response Shaper is NOT total on all parsed JSON
values. On an object whose match key holds a non-object, the second .get at
app.py line 130 raises AttributeError, which nothing in the handler catches. -/
theorem shaper_fails_on_nonobject_match :
    shape (JVal.str "C1") (JVal.obj [("match", JVal.str "not an object")]) =
      .error .attributeError := by
  simp [shape, pyGet, pyGetD, jlookup, bind, Except.bind, pure, Except.pure]

/-- C1 (amended): the Response Shaper never fails on any parsed JSON object
whose match key, when present, holds an object; missing nested fields degrade
to null or empty defaults rather than raising. -/
theorem shaper_total_on_object_match (candidate_id : JVal) (kvs : List (String × JVal))
    (h : jlookup kvs "match" = none ∨ ∃ mkvs, jlookup kvs "match" = some (.obj mkvs)) :
    ∃ out, shape candidate_id (.obj kvs) = .ok out := by
  rcases h with h | ⟨mkvs, h⟩ <;>
    simp [shape, pyGet, pyGetD, h, bind, Except.bind, pure, Except.pure]

/-- C1 witness: the amended theorem applied at the empty object. -/
theorem shaper_total_on_object_match_witness :
    ∃ out, shape JVal.null (JVal.obj []) = .ok out :=
  shaper_total_on_object_match JVal.null [] (Or.inl rfl)

/-! ## Claim C2: the Response Shaper is the stated projection -/

/-- C2: on a well-formed MatchResult object (a match object holding
final_score and matched_skills, plus a top-level summary), the shaper output
has ai_fit_score equal to match.final_score, ai_summary equal to summary,
ai_matched_skills equal to match.matched_skills, and raw_match the whole
input unchanged. -/
theorem shaper_projection_correct (candidate_id fs sm ms : JVal)
    (kvs mkvs : List (String × JVal))
    (hm : jlookup kvs "match" = some (.obj mkvs))
    (hf : jlookup mkvs "final_score" = some fs)
    (hs : jlookup kvs "summary" = some sm)
    (hk : jlookup mkvs "matched_skills" = some ms) :
    shape candidate_id (.obj kvs) =
      .ok (.obj [("candidate_id", candidate_id), ("ai_fit_score", fs),
        ("ai_summary", sm), ("ai_matched_skills", ms), ("raw_match", .obj kvs)]) := by
  simp [shape, pyGet, pyGetD, hm, hf, hs, hk, bind, Except.bind, pure, Except.pure]

/-- The stubbed model output of the end-to-end example in the spec. -/
def mjExample : JVal :=
  .obj [("summary", .str "Good fit"),
    ("match", .obj [("final_score", .num (81 / 100)), ("matched_skills", .arr [.str "Python"])])]

/-- C2 witness: the projection at the end-to-end example of the spec. -/
theorem shaper_projection_correct_witness :
    shape (JVal.str "C1") mjExample =
      .ok (.obj [("candidate_id", .str "C1"), ("ai_fit_score", .num (81 / 100)),
        ("ai_summary", .str "Good fit"), ("ai_matched_skills", .arr [.str "Python"]),
        ("raw_match", mjExample)]) :=
  shaper_projection_correct (JVal.str "C1") (.num (81 / 100)) (.str "Good fit")
    (.arr [.str "Python"]) _ _ rfl rfl rfl rfl

/-! ## Claim C8: defaults when the match key is absent -/

/-- C8: on an object with no match key, the shaper succeeds with a null
ai_fit_score and an empty ai_matched_skills list. -/
theorem shaper_defaults_when_match_absent (candidate_id : JVal) (kvs : List (String × JVal))
    (h : jlookup kvs "match" = none) :
    shape candidate_id (.obj kvs) =
      .ok (.obj [("candidate_id", candidate_id), ("ai_fit_score", .null),
        ("ai_summary", (jlookup kvs "summary").getD .null),
        ("ai_matched_skills", .arr []), ("raw_match", .obj kvs)]) := by
  simp [shape, pyGet, pyGetD, h, jlookup, bind, Except.bind, pure, Except.pure]

/-- C8 witness: the defaults at a one-field object without a match key. -/
theorem shaper_defaults_when_match_absent_witness :
    shape (JVal.str "C1") (JVal.obj [("summary", JVal.str "ok")]) =
      .ok (.obj [("candidate_id", .str "C1"), ("ai_fit_score", .null),
        ("ai_summary", (jlookup [("summary", JVal.str "ok")] "summary").getD .null),
        ("ai_matched_skills", .arr []), ("raw_match", .obj [("summary", JVal.str "ok")])]) :=
  shaper_defaults_when_match_absent (JVal.str "C1") [("summary", JVal.str "ok")] rfl

/-! ## Claim C3: the credential guard short-circuits -/

/-- C3: with no API credential configured, the handler returns the 500
configuration error with an empty effect trace, for every world and every
request body: nothing is parsed and no outbound call is attempted. -/
theorem handler_missing_key_short_circuits (cfg_model : String) (w : World) (body : JVal) :
    match_handler none cfg_model w body =
      (.ok (500, .obj [("error", .str "OPENAI_API_KEY not set on server")]), []) := rfl

/-! ## Claim C5: prompt truncation -/

/-- C5: the outbound instruction depends on resume_text only through its
first 4000 characters and on job_text only through its first 2000 characters,
and it is a fixed frame around exactly those two excerpts. -/
theorem prompt_truncates_resume_and_job :
    (∀ r1 r2 j1 j2 cid cname jid rsk, r1.take 4000 = r2.take 4000 →
      j1.take 2000 = j2.take 2000 →
      build_prompt r1 cid cname jid j1 rsk = build_prompt r2 cid cname jid j2 rsk) ∧
    (∀ r cid cname jid j rsk, ∃ a b c,
      build_prompt r cid cname jid j rsk = a ++ r.take 4000 ++ (b ++ (j.take 2000 ++ c))) := by
  constructor
  · intro r1 r2 j1 j2 cid cname jid rsk hr hj
    unfold build_prompt
    rw [hr, hj]
  · intro r cid cname jid j rsk
    refine ⟨prompt_p1,
      prompt_p2 ++ cid ++ prompt_p3 ++ cname ++ prompt_p4 ++ jid ++ prompt_p5,
      prompt_p6 ++ rsk ++ prompt_p7, ?_⟩
    simp [build_prompt, String.append_assoc]

/-- C5 witness: the dependence statement at concrete equal excerpts. -/
theorem prompt_truncates_resume_and_job_witness :
    build_prompt "resume body" "C1" "Ada" "J1" "job body" "[]" =
      build_prompt "resume body" "C1" "Ada" "J1" "job body" "[]" :=
  prompt_truncates_resume_and_job.1 "resume body" "resume body" "job body" "job body"
    "C1" "Ada" "J1" "[]" rfl rfl

/-! ## String-prefix helper lemmas -/

/-- A nonempty prefix forces the head of the larger list. -/
theorem isPrefixOf_cons_head (a : Char) (as l : List Char)
    (h : List.isPrefixOf (a :: as) l = true) : ∃ t, l = a :: t := by
  cases l with
  | nil => simp [List.isPrefixOf] at h
  | cons c cs =>
    simp [List.isPrefixOf] at h
    exact ⟨cs, by rw [h.1]⟩

/-- A string starting with the local prefix cannot also start with http. -/
theorem mnt_not_http (s : String) (h : str_startswith s "/mnt/data" = true) :
    str_startswith s "http" = false := by
  have hd : "/mnt/data".data = '/' :: ['m', 'n', 't', '/', 'd', 'a', 't', 'a'] := rfl
  rw [str_startswith, hd] at h
  obtain ⟨t, ht⟩ := isPrefixOf_cons_head _ _ _ h
  have hh : "http".data = 'h' :: ['t', 't', 'p'] := rfl
  rw [str_startswith, hh, ht]
  have hchar : ('h' == '/') = false := rfl
  simp [List.isPrefixOf, hchar]

/-- A string starting with http cannot also start with the local prefix. -/
theorem http_not_mnt (s : String) (h : str_startswith s "http" = true) :
    str_startswith s "/mnt/data" = false := by
  have hh : "http".data = 'h' :: ['t', 't', 'p'] := rfl
  rw [str_startswith, hh] at h
  obtain ⟨t, ht⟩ := isPrefixOf_cons_head _ _ _ h
  have hd : "/mnt/data".data = '/' :: ['m', 'n', 't', '/', 'd', 'a', 't', 'a'] := rfl
  rw [str_startswith, hd, ht]
  have hchar : ('/' == 'h') = false := rfl
  simp [List.isPrefixOf, hchar]

/-- A string with a cons data list is not the empty string. -/
theorem data_cons_bne_empty (s : String) (c : Char) (t : List Char) (h : s.data = c :: t) :
    (s != "") = true := by
  have hne : s ≠ "" := by
    intro he
    rw [he] at h
    simp at h
  simp [bne_iff_ne, hne]

/-- A string starting with the local prefix is truthy. -/
theorem mnt_truthy (s : String) (h : str_startswith s "/mnt/data" = true) :
    truthy (.str s) = true := by
  have hd : "/mnt/data".data = '/' :: ['m', 'n', 't', '/', 'd', 'a', 't', 'a'] := rfl
  rw [str_startswith, hd] at h
  obtain ⟨t, ht⟩ := isPrefixOf_cons_head _ _ _ h
  exact data_cons_bne_empty s _ _ ht

/-- A string starting with http is truthy. -/
theorem http_truthy (s : String) (h : str_startswith s "http" = true) :
    truthy (.str s) = true := by
  have hh : "http".data = 'h' :: ['t', 't', 'p'] := rfl
  rw [str_startswith, hh] at h
  obtain ⟨t, ht⟩ := isPrefixOf_cons_head _ _ _ h
  exact data_cons_bne_empty s _ _ ht

/-! ## Text Resolver helper lemmas -/

/-- The sentinel fallback never produces the empty string. -/
theorem fallback_ne_empty (o : Option String) : fallback o ≠ "" := by
  cases o with
  | none =>
    rw [fallback]
    decide
  | some t =>
    rw [fallback]
    split
    · decide
    · assumption

/-- The local step performs at most one local read. -/
theorem step_local_effects (w : World) (r : JVal) :
    (step_local w r).2 = [] ∨ ∃ s, (step_local w r).2 = [Effect.localRead s] := by
  unfold step_local
  split
  · split
    · split
      · exact Or.inr ⟨_, rfl⟩
      · exact Or.inl rfl
    · exact Or.inl rfl
  · exact Or.inl rfl

/-- The URL step performs at most one GET. -/
theorem step_url_effects (w : World) (r : JVal) :
    (step_url w r).2 = [] ∨ ∃ s, (step_url w r).2 = [Effect.httpGet s] := by
  unfold step_url
  split
  · split
    · split
      · exact Or.inr ⟨_, rfl⟩
      · exact Or.inl rfl
    · exact Or.inl rfl
  · exact Or.inl rfl

/-- Text resolution never performs the chat-completion call. -/
theorem resolve_no_openai_effect (w : World) (r : JVal) (t : String) :
    Effect.openaiCall t ∉ (resolve_resume_text w r).2 := by
  have h1 := step_local_effects w r
  have h2 := step_url_effects w r
  unfold resolve_resume_text
  cases hsl : step_local w r with
  | mk res1 effs1 =>
    rw [hsl] at h1
    simp only at h1
    cases hsu : step_url w r with
    | mk res2 effs2 =>
      rw [hsu] at h2
      simp only at h2
      have hm1 : Effect.openaiCall t ∉ effs1 := by
        rcases h1 with h1 | ⟨s, h1⟩ <;> subst h1 <;> simp
      have hm2 : Effect.openaiCall t ∉ effs2 := by
        rcases h2 with h2 | ⟨s, h2⟩ <;> subst h2 <;> simp
      cases res1 with
      | error e => simpa using hm1
      | ok o =>
        cases o with
        | some v => simpa using hm1
        | none =>
          cases res2 with
          | error e => simp [List.mem_append, hm1, hm2]
          | ok o2 => simp [List.mem_append, hm1, hm2]

/-- Whenever text resolution succeeds, the text is non-empty. -/
theorem resolve_ok_ne_empty (w : World) (r : JVal) (t : String) (effs : List Effect)
    (h : resolve_resume_text w r = (.ok t, effs)) : t ≠ "" := by
  unfold resolve_resume_text at h
  split at h
  · simp at h
  · rw [Prod.mk.injEq] at h
    obtain ⟨h, -⟩ := h
    rw [Except.ok.injEq] at h
    exact h ▸ fallback_ne_empty _
  · split at h
    · simp at h
    · rw [Prod.mk.injEq] at h
      obtain ⟨h, -⟩ := h
      rw [Except.ok.injEq] at h
      exact h ▸ fallback_ne_empty _

/-! ## Claim C6: unrecognized or missing sources yield the sentinel -/

/-- C6: for every resume_url string that starts with neither the local prefix
nor http (the empty string included), the Text Resolver yields the sentinel
with no effect at all; for a local-prefix path whose read fails (missing
file), it yields the sentinel after the one failed read. -/
theorem resolver_sentinel_on_unrecognized_or_missing :
    (∀ (w : World) (s : String), str_startswith s "/mnt/data" = false →
      str_startswith s "http" = false →
      resolve_resume_text w (.str s) = (.ok sentinel, [])) ∧
    (∀ (w : World) (s : String), str_startswith s "/mnt/data" = true →
      w.localFiles s = none →
      resolve_resume_text w (.str s) = (.ok sentinel, [.localRead s])) := by
  constructor
  · intro w s h1 h2
    cases ht : truthy (.str s) <;>
      simp [resolve_resume_text, step_local, step_url, h1, h2, ht, fallback]
  · intro w s h1 h2
    have ht : truthy (.str s) = true := mnt_truthy s h1
    have h3 : str_startswith s "http" = false := mnt_not_http s h1
    simp [resolve_resume_text, step_local, step_url, h1, h2, h3, ht, fallback]

/-- C6 witness: an unrecognized scheme and a missing local file. -/
theorem resolver_sentinel_on_unrecognized_or_missing_witness :
    resolve_resume_text wEx (.str "ftp://host/resume.txt") = (.ok sentinel, []) ∧
    resolve_resume_text wEx (.str "/mnt/data/missing.txt") =
      (.ok sentinel, [.localRead "/mnt/data/missing.txt"]) :=
  ⟨resolver_sentinel_on_unrecognized_or_missing.1 wEx "ftp://host/resume.txt" rfl rfl,
    resolver_sentinel_on_unrecognized_or_missing.2 wEx "/mnt/data/missing.txt" rfl rfl⟩

/-! ## Claim C7: content-type gating and error absorption of the URL fetch -/

/-- C7: the fetch returns body text only when the response exists, its status
is outside the 400-599 band raise_for_status raises for, and its declared
content type contains text or json; a 200 response declared application/pdf
yields none; a network error or an error status in that band yields none; and
through the resolver a failed fetch on an http URL degrades to the sentinel. -/
theorem fetch_requires_textual_content_type :
    (∀ (w : World) (url s : String), fetch_url_text w url = some s →
      ∃ r, w.http url = some r ∧ ¬(400 ≤ r.status ∧ r.status < 600) ∧
        (str_contains r.contentType "text" || str_contains r.contentType "json") = true ∧
        s = r.bodyText) ∧
    (∀ (w : World) (url : String) (r : HttpResponse), w.http url = some r →
      r.contentType = "application/pdf" → r.status = 200 →
      fetch_url_text w url = none) ∧
    (∀ (w : World) (url : String), w.http url = none → fetch_url_text w url = none) ∧
    (∀ (w : World) (url : String) (r : HttpResponse), w.http url = some r →
      400 ≤ r.status → r.status < 600 → fetch_url_text w url = none) ∧
    (∀ (w : World) (s : String), str_startswith s "http" = true →
      fetch_url_text w s = none →
      resolve_resume_text w (.str s) = (.ok sentinel, [.httpGet s])) := by
  refine ⟨?_, ?_, ?_, ?_, ?_⟩
  · intro w url s h
    unfold fetch_url_text at h
    cases hw : w.http url with
    | none => rw [hw] at h; simp at h
    | some r =>
      rw [hw] at h
      simp only at h
      by_cases h4 : 400 ≤ r.status ∧ r.status < 600
      · simp [h4] at h
      · by_cases hct : (str_contains r.contentType "text" || str_contains r.contentType "json") = true
        · simp only [h4, if_false, hct, if_true] at h
          rw [Option.some.injEq] at h
          exact ⟨r, rfl, h4, hct, h.symm⟩
        · simp [h4, hct] at h
  · intro w url r hw hct hs
    have hpdf : (str_contains "application/pdf" "text" ||
        str_contains "application/pdf" "json") = false := by decide
    unfold fetch_url_text
    rw [hw]
    simp only
    rw [hct, hs, hpdf]
    simp
  · intro w url hw
    unfold fetch_url_text
    rw [hw]
  · intro w url r hw h4 h5
    unfold fetch_url_text
    rw [hw]
    simp [h4, h5]
  · intro w s hpre hfetch
    have ht : truthy (.str s) = true := http_truthy s hpre
    have hm : str_startswith s "/mnt/data" = false := http_not_mnt s hpre
    simp [resolve_resume_text, step_local, step_url, hpre, hfetch, hm, ht, fallback]

/-- A world whose network always answers 200 with a PDF body. -/
def wPdf : World :=
  { localFiles := fun _ => none
    http := fun _ => some { status := 200, contentType := "application/pdf", bodyText := "%PDF" }
    post_openai := fun _ => .error "unused"
    py_str := fun _ => "" }

/-- C7 witness: a 200 PDF response is dropped and the resolver falls back to
the sentinel. -/
theorem fetch_requires_textual_content_type_witness :
    fetch_url_text wPdf "http://host/resume.pdf" = none ∧
    resolve_resume_text wPdf (.str "http://host/resume.pdf") =
      (.ok sentinel, [.httpGet "http://host/resume.pdf"]) :=
  ⟨fetch_requires_textual_content_type.2.1 wPdf "http://host/resume.pdf"
      { status := 200, contentType := "application/pdf", bodyText := "%PDF" } rfl rfl rfl,
    fetch_requires_textual_content_type.2.2.2.2 wPdf "http://host/resume.pdf" rfl
      (fetch_requires_textual_content_type.2.1 wPdf "http://host/resume.pdf"
        { status := 200, contentType := "application/pdf", bodyText := "%PDF" } rfl rfl rfl)⟩

/-- In any handler trace, an openaiCall effect whose trade came from a
successful resolution carries a non-empty text. -/
theorem trace_openai_ne_empty_aux (w : World) (rurl : JVal) (t rt : String) (effs : List Effect)
    (heq : resolve_resume_text w rurl = (.ok rt, effs))
    (hmem : Effect.openaiCall t ∈ Effect.parseBody :: effs ++ [Effect.openaiCall rt]) :
    t ≠ "" := by
  have hno : Effect.openaiCall t ∉ effs := by
    have h := resolve_no_openai_effect w rurl t
    rw [heq] at h
    simpa using h
  rcases List.mem_cons.mp hmem with h | h
  · exact absurd h (by simp)
  rcases List.mem_append.mp h with h | h
  · exact absurd h hno
  · have he : Effect.openaiCall t = Effect.openaiCall rt := List.mem_singleton.mp h
    rw [Effect.openaiCall.injEq] at he
    exact he ▸ resolve_ok_ne_empty w rurl rt effs heq

/-- A resolution that raised still recorded no chat-completion effect. -/
theorem trace_err_no_openai_aux (w : World) (rurl : JVal) (t : String) (e : PyError)
    (effs : List Effect) (heq : resolve_resume_text w rurl = (.error e, effs))
    (hmem : Effect.openaiCall t ∈ Effect.parseBody :: effs) : t ≠ "" := by
  exfalso
  have h := resolve_no_openai_effect w rurl t
  rw [heq] at h
  rcases List.mem_cons.mp hmem with h1 | h1
  · exact absurd h1 (by simp)
  · exact h h1

/-! ## Claim C9: empty resolved text is replaced by the sentinel -/

/-- C9: a local read or URL fetch that succeeds with the empty string still
ends in the sentinel, and the resume text recorded at the chat-completion
call of any handler run is never the empty string. -/
theorem resolver_empty_text_becomes_sentinel :
    (∀ (w : World) (s : String), str_startswith s "/mnt/data" = true →
      w.localFiles s = some "" →
      resolve_resume_text w (.str s) = (.ok sentinel, [.localRead s])) ∧
    (∀ (w : World) (s : String), str_startswith s "http" = true →
      fetch_url_text w s = some "" →
      resolve_resume_text w (.str s) = (.ok sentinel, [.httpGet s])) ∧
    (∀ (cfg_key : Option String) (cfg_model : String) (w : World) (body : JVal) (t : String),
      Effect.openaiCall t ∈ (match_handler cfg_key cfg_model w body).2 → t ≠ "") := by
  refine ⟨?_, ?_, ?_⟩
  · intro w s h1 h2
    have ht : truthy (.str s) = true := mnt_truthy s h1
    simp [resolve_resume_text, step_local, step_url, h1, h2, ht, fallback]
  · intro w s h1 h2
    have ht : truthy (.str s) = true := http_truthy s h1
    have hm : str_startswith s "/mnt/data" = false := http_not_mnt s h1
    simp [resolve_resume_text, step_local, step_url, h1, h2, hm, ht, fallback]
  · intro cfg_key cfg_model w body t hmem
    cases cfg_key with
    | none => simp [match_handler] at hmem
    | some key =>
      simp only [match_handler] at hmem
      split at hmem
      · simp at hmem
      · split at hmem
        · rename_i heq
          exact trace_err_no_openai_aux w _ t _ _ heq (by simpa using hmem)
        · rename_i heq
          split at hmem
          · exact trace_openai_ne_empty_aux w _ t _ _ heq (by simpa using hmem)
          · split at hmem
            · exact trace_openai_ne_empty_aux w _ t _ _ heq (by simpa using hmem)
            · exact trace_openai_ne_empty_aux w _ t _ _ heq (by simpa using hmem)

/-- A world whose local files all exist but are empty. -/
def wEmptyFile : World :=
  { localFiles := fun _ => some ""
    http := fun _ => none
    post_openai := fun _ => .error "unused"
    py_str := fun _ => "" }

/-- C9 witness: an existing but empty local file still yields the sentinel. -/
theorem resolver_empty_text_becomes_sentinel_witness :
    resolve_resume_text wEmptyFile (.str "/mnt/data/empty.txt") =
      (.ok sentinel, [.localRead "/mnt/data/empty.txt"]) :=
  resolver_empty_text_becomes_sentinel.1 wEmptyFile "/mnt/data/empty.txt" rfl rfl

/-! ## Handler helper lemmas -/

/-- On an object body every permissive field extraction succeeds with its
documented default. -/
theorem parse_fields_obj (kvs : List (String × JVal)) :
    parse_fields (.obj kvs) = .ok ((jlookup kvs "candidate_id").getD (.str "unknown"),
      (jlookup kvs "candidate_name").getD (.str ""),
      (jlookup kvs "resume_url").getD (.str ""),
      (jlookup kvs "job_id").getD (.str "JOB_000"),
      (jlookup kvs "job_text").getD (.str ""),
      (jlookup kvs "required_skills").getD (.arr [])) := by
  simp [parse_fields, pyGetD, bind, Except.bind, pure, Except.pure]

/-- Whatever the shaper returns carries the candidate_id it was given as the
first response field. -/
theorem shape_ok_candidate (cid mj out : JVal) (h : shape cid mj = .ok out) :
    getField out "candidate_id" = some cid := by
  simp only [shape, bind, Except.bind, pure, Except.pure] at h
  split at h
  · simp at h
  · split at h
    · simp at h
    · split at h
      · simp at h
      · split at h
        · simp at h
        · split at h
          · simp at h
          · rw [Except.ok.injEq] at h
            subst h
            simp [getField, jlookup]

/-! ## Claim C4: shape of the failure responses -/

/-- C4 counterexample: the configuration-error 500 body carries only an error
string and no detail field, so the claim that both failure cases contain a
detail string is false. -/
theorem config_error_lacks_detail :
    (match_handler none "gpt-4o-mini" wEx (JVal.obj [])).1 =
      .ok (500, .obj [("error", .str "OPENAI_API_KEY not set on server")]) ∧
    getField (.obj [("error", .str "OPENAI_API_KEY not set on server")]) "detail" = none :=
  ⟨rfl, rfl⟩

/-- C4 (amended): every failure response of the handler is a 500 whose body
carries an error string; the external-API-error case additionally carries a
detail string, while the configuration-error body has no detail field. -/
theorem failure_responses_have_error_string :
    ∀ (cfg_key : Option String) (cfg_model : String) (w : World) (body : JVal)
      (st : Nat) (b : JVal) (effs : List Effect),
      match_handler cfg_key cfg_model w body = (.ok (st, b), effs) → st ≠ 200 →
      st = 500 ∧ (∃ s, getField b "error" = some (.str s)) ∧
        (getField b "error" = some (.str "openai_error") →
          ∃ d, getField b "detail" = some (.str d)) := by
  intro cfg_key cfg_model w body st b effs h hne
  cases cfg_key with
  | none =>
    simp only [match_handler] at h
    rw [Prod.mk.injEq, Except.ok.injEq, Prod.mk.injEq] at h
    obtain ⟨⟨hst, hb⟩, -⟩ := h
    subst hst
    subst hb
    refine ⟨rfl, ⟨"OPENAI_API_KEY not set on server", by simp [getField, jlookup]⟩, ?_⟩
    intro hcontra
    simp [getField, jlookup] at hcontra
  | some key =>
    simp only [match_handler] at h
    split at h
    · simp at h
    · split at h
      · simp at h
      · split at h
        · rename_i detail heq
          rw [Prod.mk.injEq, Except.ok.injEq, Prod.mk.injEq] at h
          obtain ⟨⟨hst, hb⟩, -⟩ := h
          subst hst
          subst hb
          refine ⟨rfl, ⟨"openai_error", by simp [getField, jlookup]⟩, ?_⟩
          intro hok
          exact ⟨detail, by simp [getField, jlookup]⟩
        · split at h
          · simp at h
          · rw [Prod.mk.injEq, Except.ok.injEq, Prod.mk.injEq] at h
            obtain ⟨⟨hst, -⟩, -⟩ := h
            exact absurd hst.symm hne

/-- C4 witness: the amended statement instantiated at the configuration-error
response. -/
theorem failure_responses_have_error_string_witness :
    500 = 500 ∧
    (∃ s, getField (.obj [("error", .str "OPENAI_API_KEY not set on server")]) "error" =
      some (.str s)) ∧
    (getField (.obj [("error", JVal.str "OPENAI_API_KEY not set on server")]) "error" =
        some (.str "openai_error") →
      ∃ d, getField (.obj [("error", JVal.str "OPENAI_API_KEY not set on server")]) "detail" =
        some (.str d)) :=
  failure_responses_have_error_string none "gpt-4o-mini" wEx (JVal.obj []) 500
    (.obj [("error", .str "OPENAI_API_KEY not set on server")]) [] rfl (by decide)

/-! ## Claim C10: the response candidate_id comes from the request -/

/-- C10: on every successful (200) handler run over an object body, the
top-level candidate_id of the response equals the candidate_id taken from the
request body, defaulting to unknown when absent, whatever JSON the external
model returned. -/
theorem response_candidate_id_from_request :
    ∀ (key cfg_model : String) (w : World) (kvs : List (String × JVal))
      (b : JVal) (effs : List Effect),
      match_handler (some key) cfg_model w (.obj kvs) = (.ok (200, b), effs) →
      getField b "candidate_id" = some ((jlookup kvs "candidate_id").getD (.str "unknown")) := by
  intro key cfg_model w kvs b effs h
  simp only [match_handler] at h
  rw [parse_fields_obj] at h
  split at h
  · rename_i e heqe
    simp at heqe
  · rename_i cid cname rurl jid jtext rsk heqp
    simp only [Except.ok.injEq, Prod.mk.injEq] at heqp
    obtain ⟨hcid, -, -, -, -, -⟩ := heqp
    subst hcid
    split at h
    · simp at h
    · split at h
      · simp at h
      · split at h
        · simp at h
        · rename_i out heq
          rw [Prod.mk.injEq, Except.ok.injEq, Prod.mk.injEq] at h
          obtain ⟨⟨-, hb⟩, -⟩ := h
          subst hb
          exact shape_ok_candidate _ _ _ heq

/-- The stubbed model reply for the C10 witness: the model reports its own
candidate_id, which must not leak into the top-level response field. -/
def mjModel : JVal :=
  .obj [("candidate_id", .str "FROM_MODEL"), ("summary", .str "fits"),
    ("match", .obj [("final_score", .num (81 / 100)), ("matched_skills", .arr [.str "Python"])])]

/-- A world whose model endpoint always answers with mjModel. -/
def wModel : World :=
  { localFiles := fun _ => none
    http := fun _ => none
    post_openai := fun _ => .ok mjModel
    py_str := fun _ => "" }

/-- The 200 response body of the C10 witness run. -/
def outModel : JVal :=
  .obj [("candidate_id", .str "C1"), ("ai_fit_score", .num (81 / 100)),
    ("ai_summary", .str "fits"), ("ai_matched_skills", .arr [.str "Python"]),
    ("raw_match", mjModel)]

/-- C10 witness: a run whose model reply names candidate FROM_MODEL still
answers with the candidate_id C1 of the request. -/
theorem response_candidate_id_from_request_witness :
    getField outModel "candidate_id" = some (JVal.str "C1") :=
  response_candidate_id_from_request "key" "gpt-4o-mini" wModel
    [("candidate_id", JVal.str "C1")] outModel [.parseBody, .openaiCall sentinel] rfl
